import Mathlib

/-!
# Ponce: the per-instruction tritonization pipeline and the engine lifecycle

Shallow embedding of `src/triton_logic.cpp`:

* `tritonize`                              (lines 17-155)
* `ponce_set_triton_architecture`          (lines 157-183)
* `triton_restart_engines`                 (lines 186-238)
* `start_tainting_or_symbolic_analysis`    (lines 242-257)

The C++ globals (`ponce_runtime_status`, `ponce_comments`,
`breakpoint_pending_actions`, `snapshot`, `api`, the IDA database colours) are
gathered in one explicit `World` record that every operation takes and returns.
What the debugger, the processor module and the execution core answer is not
decided by this file; those answers are the fields of a `Host` record.
-/

namespace Ponce

/-! ## Data model -/

/-- Architectures that `api.setArchitecture` is called with (`triton::arch::ARCH_*`). -/
inductive Architecture where
  | ARCH_X86
  | ARCH_X86_64
  | ARCH_ARM32
  | ARCH_AARCH64
deriving DecidableEq

/-- The two callbacks that `triton_restart_engines` registers on the core. -/
inductive Callback where
  | needConcreteMemoryValue_cb
  | needConcreteRegisterValue_cb
deriving DecidableEq

/-- The fields of `triton::arch::Instruction` that `tritonize` writes or reads.
`storeAccess` lists the (address, size) pairs of `getStoreAccess()`,
`operand0Immediate` is `operands[0].getImmediate().getValue()`. -/
structure Instruction where
  address : Nat
  threadId : Int
  opcode : List Nat
  disassembly : String
  tainted : Bool
  symbolized : Bool
  branch : Bool
  conditionTaken : Bool
  nextAddress : Nat
  operand0Immediate : Nat
  storeAccess : List (Nat × Nat)
deriving DecidableEq

/-- The object built by `new triton::arch::Instruction()` and left by `clear()`. -/
def Instruction.fresh : Instruction :=
  { address := 0, threadId := 0, opcode := [], disassembly := "",
    tainted := false, symbolized := false, branch := false, conditionTaken := false,
    nextAddress := 0, operand0Immediate := 0, storeAccess := [] }

/-- The three ways `api.processing(*tritonInst)` can end inside the `try` block
of `tritonize`: it returns true, it returns false, or it throws
`triton::exceptions::Exception`. -/
inductive ProcessingResult where
  | accepted
  | rejected
  | exception
deriving DecidableEq

/-- Calls made on the global execution core `api`, in the order they are made.
The core is an external library; its state is represented by the history of
the calls it has received. -/
inductive ApiCall where
  | setArchitecture (a : Architecture)
  | reset
  | addCallback (cb : Callback)
  | enableTaintEngine (flag : Bool)
  | enableSymbolicEngine (flag : Bool)
  | processing (inst : Instruction)
deriving DecidableEq

/-- The `msg(...)` diagnostics of the file, one constructor per format string. -/
inductive Diagnostic where
  | pc_is_zero
  | error_decoding (pc : Nat)
  | not_supported (pc : Nat) (disassembly : String) (threadID : Int)
  | triton_at (pc : Nat) (disassembly : String) (threadID : Int)
  | instruction_marked (tainted : Bool) (pc : Nat)
  | branch_symbolized (pc addr1 addr2 : Nat) (taken : Bool)
  | restarting_engines
  | wrong_architecture
  | architecture_not_supported
deriving DecidableEq

/-- Calls that leave `triton_logic.cpp` for the debugger host or for another
file of the plugin, in the order they are made. -/
inductive Event where
  | msg (d : Diagnostic)
  | get_current_thread
  | can_decode (pc : Nat)
  | decode_insn (pc : Nat)
  | get_bytes (size : Nat) (ea : Nat)
  | invalidate_dbgmem_contents (ea : Nat) (size : Nat)
  | get_controlled_operands_and_add_comment (inst : Instruction) (pc : Nat)
  | add_symbolic_expressions (inst : Instruction) (pc : Nat)
  | rename_tainted_function (pc : Nat)
  | set_automatic_taint_n_simbolic
  | delete_ponce_comments
  | enable_step_trace (flag : Bool)
  | set_step_trace_options (options : Nat)
deriving DecidableEq

/-- The record appended by the disabled code of lines 144-150
(`new PathConstraint(ripId, pc, taken, notTaken, index)`). -/
structure PathConstraint where
  ripId : Nat
  pc : Nat
  taken : Nat
  notTaken : Nat
  index : Nat
deriving DecidableEq

/-- Modelled from the spec: the declaration of `ponce_runtime_status` is in
`globals.hpp`, which is not part of the sources at hand. The fields are the ones
`triton_logic.cpp` touches; the counters are the unbounded, monotonically
non-decreasing counters of spec section 3, and `runtimeTrigger` is the state
read by `getState()` and written by `enable()` and `disable()`. -/
structure RuntimeStatus where
  runtimeTrigger : Bool
  last_triton_instruction : Option Instruction
  is_ponce_tracing_enabled : Bool
  analyzed_thread : Int
  tainted_functions_index : Nat
  total_number_traced_ins : Nat
  total_number_symbolic_ins : Nat
  total_number_symbolic_conditions : Nat
  current_trace_counter : Nat
  myPathConstraints : List PathConstraint
  tracing_start_time : Nat
deriving DecidableEq

/-- The options of `cmdOptions` that `triton_logic.cpp` reads. -/
structure Config where
  showDebugInfo : Bool
  showExtraDebugInfo : Bool
  addCommentsControlledOperands : Bool
  addCommentsSymbolicExpresions : Bool
  paintExecutedInstructions : Bool
  RenameTaintedFunctionNames : Bool
  use_tainting_engine : Bool
  use_symbolic_engine : Bool
  color_executed_instruction : Nat
  color_tainted : Nat
  color_tainted_condition : Nat
deriving DecidableEq

/-- All mutable state the four functions act on.

* `ponce_comments` is the comment-annotation queue of (address, kind) pairs;
* `breakpoint_pending_actions` is the pending-breakpoint queue (its element
  type is declared outside the sources at hand; elements are identified by a
  number);
* `item_colors` is the colour column of the IDA database, newest entry first;
* `snapshot_exists` and `snapshot_modifications` are the state of the global
  `snapshot` object;
* `api` is the call history of the execution core;
* `events` is the history of calls to the host and to other plugin files. -/
structure World where
  ponce_runtime_status : RuntimeStatus
  ponce_comments : List (Nat × Nat)
  breakpoint_pending_actions : List Nat
  item_colors : List (Nat × Nat)
  snapshot_exists : Bool
  snapshot_modifications : List (Nat × Nat)
  api : List ApiCall
  events : List Event
deriving DecidableEq

/-- Answers of the environment during one call: the processor module (`ph`),
the debugger (`get_current_thread`, `can_decode`, `decode_insn`, `get_bytes`)
and the execution core (`processing`, given the calls the core has received so
far and the submitted instruction; it answers with the way the call ended and
the instruction object as the core left it). `ea_bits` is the width of `ea_t`. -/
structure Host where
  ea_bits : Nat
  ph_id : Nat
  use64 : Bool
  use32 : Bool
  get_current_thread : Int
  can_decode : Nat → Bool
  decode_insn : Nat → Nat
  get_byte : Nat → Nat
  processing : List ApiCall → Instruction → ProcessingResult × Instruction

/-- Processor family `PLFM_386` of the IDA SDK. -/
def PLFM_386 : Nat := 0

/-- Processor family `PLFM_ARM` of the IDA SDK. -/
def PLFM_ARM : Nat := 13

/-- Colour value meaning that an item has no colour (line 106). -/
def DEFCOLOR : Nat := 0xffffffff

/-- Value of `sizeof(opcodes)` for `unsigned char opcodes[15]` (line 44). -/
def sizeof_opcodes : Nat := 15

/-! ## Primitive effects -/

/-- Record one outgoing call. -/
def emit (e : Event) (w : World) : World :=
  { w with events := w.events ++ [e] }

/-- The call `msg(...)`. -/
def msg (d : Diagnostic) (w : World) : World :=
  emit (Event.msg d) w

/-- Record one call on the execution core. -/
def api_call (c : ApiCall) (w : World) : World :=
  { w with api := w.api ++ [c] }

/-- The call `get_item_color(pc)`: the newest colour stored for `pc`, or the no-colour value. -/
def get_item_color (w : World) (pc : Nat) : Nat :=
  match w.item_colors.lookup pc with
  | some c => c
  | none => DEFCOLOR

/-- The call `set_item_color(pc, color)`. -/
def set_item_color (pc color : Nat) (w : World) : World :=
  { w with item_colors := (pc, color) :: w.item_colors }

/-- The statement `ponce_comments.push_back(std::make_pair(pc, kind))`. -/
def push_comment (pc kind : Nat) (w : World) : World :=
  { w with ponce_comments := w.ponce_comments ++ [(pc, kind)] }

/-- Assignment to `ponce_runtime_status.last_triton_instruction`. -/
def set_last_instruction (i : Option Instruction) (w : World) : World :=
  { w with ponce_runtime_status := { w.ponce_runtime_status with last_triton_instruction := i } }

/-- Truncation of an address to the width of `ea_t`. -/
def to_ea (h : Host) (a : Nat) : Nat := a % 2 ^ h.ea_bits

/-- The value of `ins.size` (a 16-bit field) after `decode_insn(&ins, pc)`. -/
def item_size (h : Host) (pc : Nat) : Nat := h.decode_insn pc % 65536

/-- The bytes that `get_bytes(&opcodes, size, pc, GMB_READALL, NULL)` stores. -/
def get_bytes (h : Host) (size pc : Nat) : List Nat :=
  (List.range size).map (fun i => h.get_byte (pc + i) % 256)

/-- Modelled from the spec: `snapshot.addModification` is defined in the
snapshot file, which is not part of the sources at hand; by spec sections 2 and
4.1 step 5 every touched byte is forwarded to the recorder, here an
append-only log of (address, byte). -/
def snapshot_addModification (address value : Nat) (w : World) : World :=
  { w with snapshot_modifications := w.snapshot_modifications ++ [(address, value)] }

/-- Modelled from the spec: `get_controlled_operands_and_add_comment` is defined
outside the sources at hand; by spec section 4.1 step 6 it is a UI hook that
affects neither control flow nor counters. The call is recorded. -/
def get_controlled_operands_and_add_comment (inst : Instruction) (pc : Nat) (w : World) : World :=
  emit (Event.get_controlled_operands_and_add_comment inst pc) w

/-- Modelled from the spec: `add_symbolic_expressions` is defined outside the
sources at hand; by spec section 4.1 step 6 it is a UI hook that affects neither
control flow nor counters. The call is recorded. -/
def add_symbolic_expressions (inst : Instruction) (pc : Nat) (w : World) : World :=
  emit (Event.add_symbolic_expressions inst pc) w

/-- Modelled from the spec: `rename_tainted_function` is defined outside the
sources at hand; by spec sections 4.1 step 8 and 6 it is the fire-and-forget UI
hook that renames the enclosing function. The call is recorded. -/
def rename_tainted_function (pc : Nat) (w : World) : World :=
  emit (Event.rename_tainted_function pc) w

/-- Modelled from the spec: `set_automatic_taint_n_simbolic` is defined outside
the sources at hand; by spec section 4.3 it re-derives which analyses should run
automatically. The call is recorded. -/
def set_automatic_taint_n_simbolic (w : World) : World :=
  emit Event.set_automatic_taint_n_simbolic w

/-- Modelled from the spec: `delete_ponce_comments` is defined outside the
sources at hand; by spec sections 3 and 4.3 it clears the previously queued
comment annotations. The call is recorded. -/
def delete_ponce_comments (w : World) : World :=
  emit Event.delete_ponce_comments { w with ponce_comments := [] }

/-! ## `tritonize` (lines 17-155) -/

/-- Lines 85-93: the inner loop over the bytes of one store access. Each round
reads one byte with `get_bytes(&value, 1, (ea_t)addr + i, ...)` and hands it to
`snapshot.addModification`. -/
def track_store_bytes (h : Host) (addr : Nat) (indices : List Nat) (w : World) : World :=
  indices.foldl
    (fun acc i =>
      snapshot_addModification (to_ea h (to_ea h addr + i)) (h.get_byte (to_ea h (to_ea h addr + i)) % 256)
        (emit (Event.get_bytes 1 (to_ea h (to_ea h addr + i))) acc))
    w

/-- Lines 78-94: the loop over the store accesses of the instruction. -/
def track_store_accesses (h : Host) (accesses : List (Nat × Nat)) (w : World) : World :=
  accesses.foldl
    (fun acc a =>
      track_store_bytes h a.1 (List.range a.2)
        (emit (Event.invalidate_dbgmem_contents (to_ea h a.1) a.2) acc))
    w

/-- Lines 103-110: paint the executed instruction when it has no colour yet. -/
def paint_executed (cfg : Config) (pc : Nat) (w : World) : World :=
  if cfg.paintExecutedInstructions then
    if get_item_color w pc = DEFCOLOR then
      push_comment pc 3 (set_item_color pc cfg.color_executed_instruction w)
    else w
  else w

/-- The statement `ponce_runtime_status.total_number_symbolic_ins++` (line 115). -/
def incr_symbolic_ins (w : World) : World :=
  { w with ponce_runtime_status :=
      { w.ponce_runtime_status with
        total_number_symbolic_ins := w.ponce_runtime_status.total_number_symbolic_ins + 1 } }

/-- The statement `ponce_runtime_status.total_number_symbolic_conditions++` (line 126). -/
def incr_symbolic_conditions (w : World) : World :=
  { w with ponce_runtime_status :=
      { w.ponce_runtime_status with
        total_number_symbolic_conditions := w.ponce_runtime_status.total_number_symbolic_conditions + 1 } }

/-- Lines 124-132: the branch part of the classification. -/
def mark_symbolic_condition (cfg : Config) (inst : Instruction) (pc : Nat) (w : World) : World :=
  if inst.branch then
    let w1 := incr_symbolic_conditions w
    let w2 :=
      if cfg.use_symbolic_engine then set_item_color pc cfg.color_tainted_condition w1
      else set_item_color pc cfg.color_tainted w1
    push_comment pc 3 w2
  else w

/-- Lines 113-133: classification of a tainted or symbolized instruction. -/
def classify (cfg : Config) (inst : Instruction) (pc : Nat) (w : World) : World :=
  if inst.tainted || inst.symbolized then
    let w1 := incr_symbolic_ins w
    let w2 := if cfg.showDebugInfo then msg (Diagnostic.instruction_marked inst.tainted pc) w1 else w1
    let w3 := if cfg.RenameTaintedFunctionNames then rename_tainted_function pc w2 else w2
    mark_symbolic_condition cfg inst pc w3
  else w

/-- Lines 135-151: a symbolized branch. Only the diagnostic is live; the
recording of the path constraint is commented out in the source. -/
def report_symbolized_branch (cfg : Config) (inst : Instruction) (pc : Nat) (w : World) : World :=
  if inst.branch && inst.symbolized then
    if cfg.showDebugInfo then
      msg (Diagnostic.branch_symbolized pc inst.nextAddress inst.operand0Immediate inst.conditionTaken) w
    else w
  else w

/-- Lines 70-152: what `tritonize` does once `api.processing` has returned true. -/
def after_processing (h : Host) (cfg : Config) (inst : Instruction) (pc : Nat) (threadID : Int)
    (w : World) : World :=
  let w1 := if cfg.showExtraDebugInfo then msg (Diagnostic.triton_at pc inst.disassembly threadID) w else w
  let w2 := if w1.snapshot_exists then track_store_accesses h inst.storeAccess w1 else w1
  let w3 := if cfg.addCommentsControlledOperands then get_controlled_operands_and_add_comment inst pc w2 else w2
  let w4 := if cfg.addCommentsSymbolicExpresions then add_symbolic_expressions inst pc w3 else w3
  let w5 := paint_executed cfg pc w4
  let w6 := classify cfg inst pc w5
  report_symbolized_branch cfg inst pc w6

/-- Line 23: `threadID = threadID ? threadID : get_current_thread()`. -/
def resolve_thread (h : Host) (threadID : Int) : Int :=
  if threadID = 0 then h.get_current_thread else threadID

/-- Lines 36-57: the instruction object handed to the core. -/
def build_instruction (h : Host) (pc : Nat) (threadID : Int) : Instruction :=
  { Instruction.fresh with
    opcode := get_bytes h (item_size h pc) pc, address := pc, threadId := resolve_thread h threadID }

/-- Lines 30-51: the world in which the core is called, for `pc != 0` and a
passing length assertion: the held instruction is replaced and the decoder and
the memory of the debuggee are queried. -/
def before_processing (h : Host) (pc : Nat) (threadID : Int) (w : World) : World :=
  let w1 := if threadID = 0 then emit Event.get_current_thread w else w
  let w2 := set_last_instruction (some Instruction.fresh) w1
  let w3 := emit (Event.can_decode pc) w2
  let w4 := if h.can_decode pc = false then msg (Diagnostic.error_decoding pc) w3 else w3
  let w5 := emit (Event.decode_insn pc) w4
  emit (Event.get_bytes (item_size h pc) pc) w5

/-- The function `tritonize`. The result is `none` when the assertion of
line 50 fails (the process is aborted); otherwise it is the returned status
(0 instruction tritonized, 1 trigger is not activated, 2 other error) together
with the world after the call. -/
def tritonize (h : Host) (cfg : Config) (w : World) (pc : Nat) (threadID : Int) :
    Option (Nat × World) :=
  if w.ponce_runtime_status.runtimeTrigger = false then some (1, w)
  else if pc = 0 then
    some (2, msg Diagnostic.pc_is_zero (if threadID = 0 then emit Event.get_current_thread w else w))
  else if item_size h pc < sizeof_opcodes then
    let w1 := before_processing h pc threadID w
    let inst := build_instruction h pc threadID
    let r := h.processing w1.api inst
    let w2 := set_last_instruction (some r.2) (api_call (ApiCall.processing inst) w1)
    match r.1 with
    | ProcessingResult.accepted => some (0, after_processing h cfg r.2 pc (resolve_thread h threadID) w2)
    | ProcessingResult.rejected =>
        some (2, msg (Diagnostic.not_supported pc r.2.disassembly (resolve_thread h threadID)) w2)
    | ProcessingResult.exception =>
        some (2, msg (Diagnostic.not_supported pc r.2.disassembly (resolve_thread h threadID)) w2)
  else none

/-! ## `ponce_set_triton_architecture` (lines 157-183) -/

/-- The function `ponce_set_triton_architecture`: the returned flag and the world after the call. -/
def ponce_set_triton_architecture (h : Host) (w : World) : Bool × World :=
  if h.ph_id = PLFM_386 then
    if h.use64 then (true, api_call (ApiCall.setArchitecture Architecture.ARCH_X86_64) w)
    else if h.use32 then (true, api_call (ApiCall.setArchitecture Architecture.ARCH_X86) w)
    else (false, msg Diagnostic.wrong_architecture w)
  else if h.ph_id = PLFM_ARM then
    if h.use64 then (true, api_call (ApiCall.setArchitecture Architecture.ARCH_AARCH64) w)
    else if h.use32 then (true, api_call (ApiCall.setArchitecture Architecture.ARCH_ARM32) w)
    else (false, msg Diagnostic.wrong_architecture w)
  else (false, msg Diagnostic.architecture_not_supported w)

/-! ## `triton_restart_engines` (lines 186-238) -/

/-- Lines 201-204 and 227-234: the assignments to `ponce_runtime_status`. -/
def reset_runtime_status (s : RuntimeStatus) : RuntimeStatus :=
  { s with
    last_triton_instruction := none
    runtimeTrigger := false
    is_ponce_tracing_enabled := false
    tainted_functions_index := 0
    total_number_traced_ins := 0
    total_number_symbolic_ins := 0
    total_number_symbolic_conditions := 0
    current_trace_counter := 0 }

/-- The function `triton_restart_engines`. The flag returned by
`ponce_set_triton_architecture` is dropped, as on line 191. -/
def triton_restart_engines (h : Host) (cfg : Config) (w : World) : World :=
  let w1 := if cfg.showDebugInfo then msg Diagnostic.restarting_engines w else w
  let w2 := (ponce_set_triton_architecture h w1).2
  let w3 := api_call ApiCall.reset w2
  let w4 := api_call (ApiCall.addCallback Callback.needConcreteMemoryValue_cb) w3
  let w5 := api_call (ApiCall.addCallback Callback.needConcreteRegisterValue_cb) w4
  let w6 := api_call (ApiCall.enableTaintEngine cfg.use_tainting_engine) w5
  let w7 := api_call (ApiCall.enableSymbolicEngine cfg.use_symbolic_engine) w6
  let w8 := { w7 with ponce_runtime_status := reset_runtime_status w7.ponce_runtime_status }
  let w9 := { w8 with breakpoint_pending_actions := [] }
  let w10 := set_automatic_taint_n_simbolic w9
  { w10 with ponce_runtime_status := { w10.ponce_runtime_status with myPathConstraints := [] } }

/-! ## `start_tainting_or_symbolic_analysis` (lines 242-257) -/

/-- The function `start_tainting_or_symbolic_analysis`. -/
def start_tainting_or_symbolic_analysis (h : Host) (cfg : Config) (w : World) : World :=
  if w.ponce_runtime_status.is_ponce_tracing_enabled = false then
    let w1 := triton_restart_engines h cfg w
    let w2 := delete_ponce_comments w1
    let w3 := { w2 with ponce_runtime_status := { w2.ponce_runtime_status with runtimeTrigger := true } }
    let w4 := emit Event.get_current_thread w3
    let w5 := { w4 with ponce_runtime_status :=
      { w4.ponce_runtime_status with analyzed_thread := h.get_current_thread } }
    let w6 := { w5 with ponce_runtime_status :=
      { w5.ponce_runtime_status with is_ponce_tracing_enabled := true } }
    let w7 := emit (Event.enable_step_trace true) w6
    let w8 := emit (Event.set_step_trace_options 0) w7
    { w8 with ponce_runtime_status := { w8.ponce_runtime_status with tracing_start_time := 0 } }
  else w

/-! ## Auxiliary definitions used to state the lemmas -/

/-- The relation between two worlds that differ at most in the event history
and in the state of the snapshot object. -/
def Kept (w v : World) : Prop :=
  v.ponce_runtime_status = w.ponce_runtime_status ∧
  v.ponce_comments = w.ponce_comments ∧
  v.item_colors = w.item_colors ∧
  v.breakpoint_pending_actions = w.breakpoint_pending_actions ∧
  v.api = w.api

/-- The world reaching the painting step (line 103), computed from the world in
which `api.processing` returned true (lines 70-101). -/
def before_paint (h : Host) (cfg : Config) (inst : Instruction) (pc : Nat) (threadID : Int)
    (w : World) : World :=
  let w1 := if cfg.showExtraDebugInfo then msg (Diagnostic.triton_at pc inst.disassembly threadID) w else w
  let w2 := if w1.snapshot_exists then track_store_accesses h inst.storeAccess w1 else w1
  let w3 := if cfg.addCommentsControlledOperands then get_controlled_operands_and_add_comment inst pc w2 else w2
  if cfg.addCommentsSymbolicExpresions then add_symbolic_expressions inst pc w3 else w3

/-- The events of lines 23-51, for `pc != 0` and a passing length assertion. -/
def decode_events (h : Host) (pc : Nat) (threadID : Int) : List Event :=
  (if threadID = 0 then [Event.get_current_thread] else []) ++
  [Event.can_decode pc] ++
  (if h.can_decode pc = false then [Event.msg (Diagnostic.error_decoding pc)] else []) ++
  [Event.decode_insn pc, Event.get_bytes (item_size h pc) pc]

/-- The answer of the core to the instruction that `tritonize` submits at `pc`. -/
def core_answer (h : Host) (w : World) (pc : Nat) (threadID : Int) : ProcessingResult × Instruction :=
  h.processing w.api (build_instruction h pc threadID)

/-- The world right after `api.processing` came back (line 60): the core has
one more call in its history and the held instruction is the one the core left. -/
def submitted (h : Host) (pc : Nat) (threadID : Int) (w : World) : World :=
  set_last_instruction (some (core_answer h w pc threadID).2)
    (api_call (ApiCall.processing (build_instruction h pc threadID)) (before_processing h pc threadID w))

/-- The calls `ponce_set_triton_architecture` makes on the core. -/
def architecture_calls (h : Host) : List ApiCall :=
  if h.ph_id = PLFM_386 then
    if h.use64 then [ApiCall.setArchitecture Architecture.ARCH_X86_64]
    else if h.use32 then [ApiCall.setArchitecture Architecture.ARCH_X86] else []
  else if h.ph_id = PLFM_ARM then
    if h.use64 then [ApiCall.setArchitecture Architecture.ARCH_AARCH64]
    else if h.use32 then [ApiCall.setArchitecture Architecture.ARCH_ARM32] else []
  else []

/-- The diagnostics `ponce_set_triton_architecture` prints. -/
def architecture_events (h : Host) : List Event :=
  if h.ph_id = PLFM_386 then
    if h.use64 then [] else if h.use32 then [] else [Event.msg Diagnostic.wrong_architecture]
  else if h.ph_id = PLFM_ARM then
    if h.use64 then [] else if h.use32 then [] else [Event.msg Diagnostic.wrong_architecture]
  else [Event.msg Diagnostic.architecture_not_supported]

/-- Worlds reachable from a restarted world by `triton_restart_engines`,
`start_tainting_or_symbolic_analysis` and returning calls of `tritonize`, under
any hosts, configurations and arguments. -/
inductive Reachable : World → Prop where
  | restarted (h : Host) (cfg : Config) (w : World) : Reachable (triton_restart_engines h cfg w)
  | restart (h : Host) (cfg : Config) (w : World) :
      Reachable w → Reachable (triton_restart_engines h cfg w)
  | start (h : Host) (cfg : Config) (w : World) :
      Reachable w → Reachable (start_tainting_or_symbolic_analysis h cfg w)
  | tritonize (h : Host) (cfg : Config) (w v : World) (pc : Nat) (threadID : Int) (status : Nat) :
      Reachable w → tritonize h cfg w pc threadID = some (status, v) → Reachable v

/-! ## Concrete worlds and hosts -/

/-- A runtime status in the middle of a trace: trigger and tracing on, an
instruction held, counters non-zero. -/
def tracing_status : RuntimeStatus :=
  { runtimeTrigger := true
    last_triton_instruction := some { Instruction.fresh with address := 0x1ffe, threadId := 7, opcode := [0x90] }
    is_ponce_tracing_enabled := true
    analyzed_thread := 7
    tainted_functions_index := 1
    total_number_traced_ins := 10
    total_number_symbolic_ins := 4
    total_number_symbolic_conditions := 2
    current_trace_counter := 10
    myPathConstraints := [{ ripId := 1, pc := 0x1f00, taken := 0x1f40, notTaken := 0x1f02, index := 0 }]
    tracing_start_time := 0 }

/-- A world in the middle of a trace; the item at `0x2000` was painted on an earlier visit. -/
def tracing_world : World :=
  { ponce_runtime_status := tracing_status
    ponce_comments := [(0x2000, 3)]
    breakpoint_pending_actions := [1]
    item_colors := [(0x2000, 0x00ff00)]
    snapshot_exists := true
    snapshot_modifications := []
    api := [ApiCall.setArchitecture Architecture.ARCH_X86_64, ApiCall.reset]
    events := [] }

/-- The same world with the trigger and the tracing flag off. -/
def idle_world : World :=
  { tracing_world with
    ponce_runtime_status :=
      { tracing_status with runtimeTrigger := false, is_ponce_tracing_enabled := false } }

/-- A configuration with painting enabled and the symbolic engine in use. -/
def painting_config : Config :=
  { showDebugInfo := false
    showExtraDebugInfo := false
    addCommentsControlledOperands := false
    addCommentsSymbolicExpresions := false
    paintExecutedInstructions := true
    RenameTaintedFunctionNames := false
    use_tainting_engine := false
    use_symbolic_engine := true
    color_executed_instruction := 0x00ff00
    color_tainted := 0x0000ff
    color_tainted_condition := 0xff0000 }

/-- A 64-bit x86 host; every instruction is two bytes long and the core reports
it as a tainted and symbolized conditional jump that is taken. -/
def host_symbolic_branch : Host :=
  { ea_bits := 64
    ph_id := PLFM_386
    use64 := true
    use32 := false
    get_current_thread := 7
    can_decode := fun _ => true
    decode_insn := fun _ => 2
    get_byte := fun a => a
    processing := fun _ i =>
      (ProcessingResult.accepted,
        { i with
          disassembly := "jz 0x3000", tainted := true, symbolized := true, branch := true,
          conditionTaken := true, nextAddress := i.address + 2, operand0Immediate := 0x3000 }) }

/-- The same host with a core that reports every instruction as tainted and not a branch. -/
def host_tainted_move : Host :=
  { host_symbolic_branch with
    processing := fun _ i =>
      (ProcessingResult.accepted, { i with disassembly := "mov eax, ebx", tainted := true }) }

/-- The same host with a core that returns false for every instruction. -/
def host_rejecting : Host :=
  { host_symbolic_branch with processing := fun _ i => (ProcessingResult.rejected, i) }

/-- A host whose decoder fails everywhere (`can_decode` is false and the decoded
size is 0) and whose core throws on the empty opcode. -/
def host_decode_failure : Host :=
  { host_symbolic_branch with
    can_decode := fun _ => false
    decode_insn := fun _ => 0
    processing := fun _ i => (ProcessingResult.exception, i) }

/-- A host whose decoder reports an instruction of 15 bytes everywhere. -/
def host_fifteen_bytes : Host :=
  { host_symbolic_branch with decode_insn := fun _ => 15 }

/-- A host whose decoder reports an instruction of 14 bytes everywhere. -/
def host_fourteen_bytes : Host :=
  { host_symbolic_branch with decode_insn := fun _ => 14 }

/-- A 32-bit MIPS host (`PLFM_MIPS` is 12 in the IDA SDK). -/
def host_mips : Host :=
  { host_symbolic_branch with ph_id := 12, use64 := false, use32 := true }

/-! ## Frame lemmas for the steps of `tritonize` -/

theorem Kept.refl (w : World) : Kept w w := ⟨rfl, rfl, rfl, rfl, rfl⟩

theorem Kept.trans {a b c : World} (hab : Kept a b) (hbc : Kept b c) : Kept a c :=
  ⟨hbc.1.trans hab.1, hbc.2.1.trans hab.2.1, hbc.2.2.1.trans hab.2.2.1,
    hbc.2.2.2.1.trans hab.2.2.2.1, hbc.2.2.2.2.trans hab.2.2.2.2⟩

theorem kept_emit (e : Event) (w : World) : Kept w (emit e w) := ⟨rfl, rfl, rfl, rfl, rfl⟩

theorem kept_msg (d : Diagnostic) (w : World) : Kept w (msg d w) := ⟨rfl, rfl, rfl, rfl, rfl⟩

theorem kept_snapshot_addModification (a b : Nat) (w : World) :
    Kept w (snapshot_addModification a b w) := ⟨rfl, rfl, rfl, rfl, rfl⟩

theorem kept_track_store_bytes (h : Host) (addr : Nat) (indices : List Nat) (w : World) :
    Kept w (track_store_bytes h addr indices w) := by
  induction indices generalizing w with
  | nil => exact Kept.refl w
  | cons i rest ih =>
    have first : Kept w (snapshot_addModification (to_ea h (to_ea h addr + i))
        (h.get_byte (to_ea h (to_ea h addr + i)) % 256)
        (emit (Event.get_bytes 1 (to_ea h (to_ea h addr + i))) w)) :=
      (kept_emit _ w).trans (kept_snapshot_addModification _ _ _)
    exact first.trans (ih _)

theorem kept_track_store_accesses (h : Host) (accesses : List (Nat × Nat)) (w : World) :
    Kept w (track_store_accesses h accesses w) := by
  induction accesses generalizing w with
  | nil => exact Kept.refl w
  | cons a rest ih =>
    have first : Kept w (track_store_bytes h a.1 (List.range a.2)
        (emit (Event.invalidate_dbgmem_contents (to_ea h a.1) a.2) w)) :=
      (kept_emit _ w).trans (kept_track_store_bytes h a.1 _ _)
    exact first.trans (ih _)

theorem after_processing_eq (h : Host) (cfg : Config) (inst : Instruction) (pc : Nat)
    (threadID : Int) (w : World) :
    after_processing h cfg inst pc threadID w =
      report_symbolized_branch cfg inst pc
        (classify cfg inst pc (paint_executed cfg pc (before_paint h cfg inst pc threadID w))) := rfl

theorem kept_ite (c : Prop) [Decidable c] (w v : World) (hv : Kept w v) :
    Kept w (if c then v else w) := by
  by_cases hc : c
  · simpa [hc] using hv
  · simpa [hc] using Kept.refl w

theorem kept_before_paint (h : Host) (cfg : Config) (inst : Instruction) (pc : Nat)
    (threadID : Int) (w : World) : Kept w (before_paint h cfg inst pc threadID w) := by
  have k1 := kept_ite (cfg.showExtraDebugInfo = true) w
    (msg (Diagnostic.triton_at pc inst.disassembly threadID) w) (kept_msg _ w)
  have k2 := fun v : World => kept_ite (v.snapshot_exists = true) v
    (track_store_accesses h inst.storeAccess v) (kept_track_store_accesses h _ v)
  have k3 := fun v : World => kept_ite (cfg.addCommentsControlledOperands = true) v
    (get_controlled_operands_and_add_comment inst pc v) (kept_emit _ v)
  have k4 := fun v : World => kept_ite (cfg.addCommentsSymbolicExpresions = true) v
    (add_symbolic_expressions inst pc v) (kept_emit _ v)
  exact ((k1.trans (k2 _)).trans (k3 _)).trans (k4 _)

theorem kept_report_symbolized_branch (cfg : Config) (inst : Instruction) (pc : Nat) (w : World) :
    Kept w (report_symbolized_branch cfg inst pc w) := by
  unfold report_symbolized_branch
  exact kept_ite ((inst.branch && inst.symbolized) = true) w _
    (kept_ite (cfg.showDebugInfo = true) w _ (kept_msg _ w))

/-- Effect of the painting step (lines 103-110) on the comment queue and on the runtime status. -/
theorem paint_executed_effect (cfg : Config) (pc : Nat) (w : World) :
    (paint_executed cfg pc w).ponce_runtime_status = w.ponce_runtime_status ∧
    (paint_executed cfg pc w).api = w.api ∧
    (paint_executed cfg pc w).ponce_comments =
      w.ponce_comments ++
        (if cfg.paintExecutedInstructions = true ∧ get_item_color w pc = DEFCOLOR then [(pc, 3)] else []) ∧
    (paint_executed cfg pc w).item_colors =
      (if cfg.paintExecutedInstructions = true ∧ get_item_color w pc = DEFCOLOR
        then [(pc, cfg.color_executed_instruction)] else []) ++ w.item_colors := by
  unfold paint_executed
  by_cases hp : cfg.paintExecutedInstructions = true <;>
  by_cases hc : get_item_color w pc = DEFCOLOR <;>
  simp [hp, hc, push_comment, set_item_color]

/-- Effect of the classification step (lines 113-133) on the counters, the
remaining fields of the runtime status and the comment queue. -/
theorem classify_effect (cfg : Config) (inst : Instruction) (pc : Nat) (w : World) :
    (classify cfg inst pc w).ponce_runtime_status =
      { w.ponce_runtime_status with
        total_number_symbolic_ins := w.ponce_runtime_status.total_number_symbolic_ins +
          (if (inst.tainted || inst.symbolized) = true then 1 else 0)
        total_number_symbolic_conditions := w.ponce_runtime_status.total_number_symbolic_conditions +
          (if ((inst.tainted || inst.symbolized) && inst.branch) = true then 1 else 0) } ∧
    (classify cfg inst pc w).api = w.api ∧
    (classify cfg inst pc w).ponce_comments =
      w.ponce_comments ++
        (if ((inst.tainted || inst.symbolized) && inst.branch) = true then [(pc, 3)] else []) ∧
    (classify cfg inst pc w).item_colors =
      (if ((inst.tainted || inst.symbolized) && inst.branch) = true
        then [(pc, if cfg.use_symbolic_engine = true then cfg.color_tainted_condition
          else cfg.color_tainted)] else []) ++ w.item_colors := by
  unfold classify mark_symbolic_condition
  cases inst.tainted <;> cases inst.symbolized <;> cases inst.branch <;>
  cases cfg.showDebugInfo <;> cases cfg.RenameTaintedFunctionNames <;>
  cases cfg.use_symbolic_engine <;>
  simp [incr_symbolic_ins, incr_symbolic_conditions, msg, emit, rename_tainted_function,
    push_comment, set_item_color]

theorem before_processing_eq (h : Host) (pc : Nat) (threadID : Int) (w : World) :
    before_processing h pc threadID w =
      { w with
        ponce_runtime_status :=
          { w.ponce_runtime_status with last_triton_instruction := some Instruction.fresh }
        events := w.events ++ decode_events h pc threadID } := by
  unfold before_processing decode_events
  by_cases ht : threadID = 0 <;> by_cases hd : h.can_decode pc = false <;>
  simp [ht, hd, emit, msg, set_last_instruction]

theorem submitted_eq (h : Host) (pc : Nat) (threadID : Int) (w : World) :
    submitted h pc threadID w =
      { w with
        ponce_runtime_status :=
          { w.ponce_runtime_status with
            last_triton_instruction := some (core_answer h w pc threadID).2 }
        api := w.api ++ [ApiCall.processing (build_instruction h pc threadID)]
        events := w.events ++ decode_events h pc threadID } := by
  unfold submitted
  rw [before_processing_eq]
  rfl

/-- The path of `tritonize` on which the core accepts the instruction. -/
theorem tritonize_of_accepted (h : Host) (cfg : Config) (w : World) (pc : Nat) (threadID : Int)
    (hon : w.ponce_runtime_status.runtimeTrigger = true) (hpc : pc ≠ 0)
    (hlen : item_size h pc < sizeof_opcodes)
    (hacc : (core_answer h w pc threadID).1 = ProcessingResult.accepted) :
    tritonize h cfg w pc threadID =
      some (0, after_processing h cfg (core_answer h w pc threadID).2 pc (resolve_thread h threadID)
        (submitted h pc threadID w)) := by
  have hapi : (before_processing h pc threadID w).api = w.api := by rw [before_processing_eq]
  unfold core_answer at hacc
  simp only [tritonize, hon, hpc, hlen, hapi, hacc, submitted, core_answer]
  simp

/-- The path of `tritonize` on which the core does not accept the instruction. -/
theorem tritonize_of_refused (h : Host) (cfg : Config) (w : World) (pc : Nat) (threadID : Int)
    (hon : w.ponce_runtime_status.runtimeTrigger = true) (hpc : pc ≠ 0)
    (hlen : item_size h pc < sizeof_opcodes)
    (hrej : (core_answer h w pc threadID).1 ≠ ProcessingResult.accepted) :
    tritonize h cfg w pc threadID =
      some (2, msg (Diagnostic.not_supported pc (core_answer h w pc threadID).2.disassembly
        (resolve_thread h threadID)) (submitted h pc threadID w)) := by
  have hapi : (before_processing h pc threadID w).api = w.api := by rw [before_processing_eq]
  unfold core_answer at hrej
  cases hres : (h.processing w.api (build_instruction h pc threadID)).1 with
  | accepted => exact absurd hres hrej
  | rejected =>
    simp only [tritonize, hon, hpc, hlen, hapi, hres, submitted, core_answer]
    simp
  | exception =>
    simp only [tritonize, hon, hpc, hlen, hapi, hres, submitted, core_answer]
    simp

/-- Effect of lines 70-152 on the runtime status, the core history, the comment
queue and the item colours. -/
theorem after_processing_effect (h : Host) (cfg : Config) (inst : Instruction) (pc : Nat)
    (threadID : Int) (w : World) :
    (after_processing h cfg inst pc threadID w).ponce_runtime_status =
      { w.ponce_runtime_status with
        total_number_symbolic_ins := w.ponce_runtime_status.total_number_symbolic_ins +
          (if (inst.tainted || inst.symbolized) = true then 1 else 0)
        total_number_symbolic_conditions := w.ponce_runtime_status.total_number_symbolic_conditions +
          (if ((inst.tainted || inst.symbolized) && inst.branch) = true then 1 else 0) } ∧
    (after_processing h cfg inst pc threadID w).api = w.api ∧
    (after_processing h cfg inst pc threadID w).ponce_comments =
      (w.ponce_comments ++
        (if cfg.paintExecutedInstructions = true ∧ get_item_color w pc = DEFCOLOR then [(pc, 3)] else [])) ++
        (if ((inst.tainted || inst.symbolized) && inst.branch) = true then [(pc, 3)] else []) ∧
    (after_processing h cfg inst pc threadID w).item_colors =
      (if ((inst.tainted || inst.symbolized) && inst.branch) = true
        then [(pc, if cfg.use_symbolic_engine = true then cfg.color_tainted_condition
          else cfg.color_tainted)] else []) ++
      ((if cfg.paintExecutedInstructions = true ∧ get_item_color w pc = DEFCOLOR
        then [(pc, cfg.color_executed_instruction)] else []) ++ w.item_colors) := by
  rw [after_processing_eq]
  have hb := kept_before_paint h cfg inst pc threadID w
  have hp := paint_executed_effect cfg pc (before_paint h cfg inst pc threadID w)
  have hc := classify_effect cfg inst pc (paint_executed cfg pc (before_paint h cfg inst pc threadID w))
  have hr := kept_report_symbolized_branch cfg inst pc
    (classify cfg inst pc (paint_executed cfg pc (before_paint h cfg inst pc threadID w)))
  have hcol : get_item_color (before_paint h cfg inst pc threadID w) pc = get_item_color w pc := by
    unfold get_item_color
    rw [hb.2.2.1]
  rw [hcol] at hp
  refine ⟨?_, ?_, ?_, ?_⟩
  · rw [hr.1, hc.1, hp.1, hb.1]
  · rw [hr.2.2.2.2, hc.2.1, hp.2.1, hb.2.2.2.2]
  · rw [hr.2.1, hc.2.2.1, hp.2.2.1, hb.2.1]
  · rw [hr.2.2.1, hc.2.2.2, hp.2.2.2, hb.2.2.1]

/-- Whenever `tritonize` returns, the trigger and the tracing flag are the ones it started with. -/
theorem tritonize_keeps_flags (h : Host) (cfg : Config) (w v : World) (pc : Nat) (threadID : Int)
    (status : Nat) (hret : tritonize h cfg w pc threadID = some (status, v)) :
    v.ponce_runtime_status.runtimeTrigger = w.ponce_runtime_status.runtimeTrigger ∧
    v.ponce_runtime_status.is_ponce_tracing_enabled
      = w.ponce_runtime_status.is_ponce_tracing_enabled := by
  cases hon : w.ponce_runtime_status.runtimeTrigger with
  | false =>
    have hv : tritonize h cfg w pc threadID = some (1, w) := by simp [tritonize, hon]
    rw [hv] at hret
    cases hret
    exact ⟨hon, rfl⟩
  | true =>
    by_cases hpc : pc = 0
    · have hv : tritonize h cfg w pc threadID = some (2, msg Diagnostic.pc_is_zero
          (if threadID = 0 then emit Event.get_current_thread w else w)) := by
        simp [tritonize, hon, hpc]
      rw [hv] at hret
      cases hret
      by_cases ht : threadID = 0 <;> simp [ht, msg, emit, hon]
    · by_cases hlen : item_size h pc < sizeof_opcodes
      · by_cases hacc : (core_answer h w pc threadID).1 = ProcessingResult.accepted
        · rw [tritonize_of_accepted h cfg w pc threadID hon hpc hlen hacc] at hret
          cases hret
          rw [(after_processing_effect h cfg _ pc _ _).1, submitted_eq]
          exact ⟨hon, rfl⟩
        · rw [tritonize_of_refused h cfg w pc threadID hon hpc hlen hacc] at hret
          cases hret
          rw [submitted_eq]
          exact ⟨hon, rfl⟩
      · have hv : tritonize h cfg w pc threadID = none := by simp [tritonize, hon, hpc, hlen]
        rw [hv] at hret
        cases hret

/-- The opcode handed to the core has as many bytes as the decoder reported. -/
theorem build_instruction_opcode_length (h : Host) (pc : Nat) (threadID : Int) :
    (build_instruction h pc threadID).opcode.length = item_size h pc := by
  simp [build_instruction, get_bytes]

/-- With the trigger enabled and `pc` non-zero, `tritonize` fails the assertion
of line 50 exactly when the decoded length is 15 or more. -/
theorem tritonize_aborts_iff (h : Host) (cfg : Config) (w : World) (pc : Nat) (threadID : Int)
    (hon : w.ponce_runtime_status.runtimeTrigger = true) (hpc : pc ≠ 0) :
    tritonize h cfg w pc threadID = none ↔ sizeof_opcodes ≤ item_size h pc := by
  by_cases hlen : item_size h pc < sizeof_opcodes
  · by_cases hacc : (core_answer h w pc threadID).1 = ProcessingResult.accepted
    · rw [tritonize_of_accepted h cfg w pc threadID hon hpc hlen hacc]
      simp [hlen]
    · rw [tritonize_of_refused h cfg w pc threadID hon hpc hlen hacc]
      simp [hlen]
  · have hv : tritonize h cfg w pc threadID = none := by simp [tritonize, hon, hpc, hlen]
    simp only [hv, true_iff]
    exact Nat.le_of_not_lt hlen

/-- With the trigger enabled, `pc` non-zero and the length assertion passed,
`tritonize` submits the instruction to the core whatever `can_decode` answered. -/
theorem tritonize_submits (h : Host) (cfg : Config) (w : World) (pc : Nat) (threadID : Int)
    (hon : w.ponce_runtime_status.runtimeTrigger = true) (hpc : pc ≠ 0)
    (hlen : item_size h pc < sizeof_opcodes) :
    ∃ (status : Nat) (v : World), tritonize h cfg w pc threadID = some (status, v) ∧
      v.api = w.api ++ [ApiCall.processing (build_instruction h pc threadID)] := by
  by_cases hacc : (core_answer h w pc threadID).1 = ProcessingResult.accepted
  · refine ⟨0, _, tritonize_of_accepted h cfg w pc threadID hon hpc hlen hacc, ?_⟩
    rw [(after_processing_effect h cfg _ pc _ _).2.1, submitted_eq]
  · refine ⟨2, _, tritonize_of_refused h cfg w pc threadID hon hpc hlen hacc, ?_⟩
    rw [submitted_eq]
    rfl

/-! ## Claims about `tritonize` -/

/-- C1. With the runtime trigger disabled, `tritonize` returns status 1 for
every host, configuration, address and thread id, and the world it returns is
the world it was given; hence any sequence of such calls, whatever their
arguments, ends in the starting world. -/
theorem tritonize_trigger_disabled (w : World)
    (hoff : w.ponce_runtime_status.runtimeTrigger = false) :
    (∀ (h : Host) (cfg : Config) (pc : Nat) (threadID : Int),
      tritonize h cfg w pc threadID = some (1, w)) ∧
    (∀ calls : List (Host × Config × Nat × Int),
      calls.foldlM (fun acc c => (tritonize c.1 c.2.1 acc c.2.2.1 c.2.2.2).map Prod.snd) w
        = some w) := by
  have one : ∀ (h : Host) (cfg : Config) (pc : Nat) (threadID : Int),
      tritonize h cfg w pc threadID = some (1, w) := by
    intro h cfg pc threadID
    simp [tritonize, hoff]
  refine ⟨one, ?_⟩
  intro calls
  induction calls with
  | nil => rfl
  | cons c rest ih => simpa [List.foldlM_cons, one] using ih

/-- C4. With the trigger enabled, `tritonize(0, threadID)` returns status 2.
The runtime status (held instruction and counters included), the core history,
the comment queue, the item colours and the snapshot log are those of the
starting world; the only new events are the optional `get_current_thread`
query and the diagnostic, so neither the decoder nor the core is called. -/
theorem tritonize_null_pc (h : Host) (cfg : Config) (w : World) (threadID : Int)
    (hon : w.ponce_runtime_status.runtimeTrigger = true) :
    ∃ v : World, tritonize h cfg w 0 threadID = some (2, v) ∧
      v.ponce_runtime_status = w.ponce_runtime_status ∧
      v.ponce_runtime_status.last_triton_instruction = w.ponce_runtime_status.last_triton_instruction ∧
      v.api = w.api ∧
      v.events = w.events ++ (if threadID = 0 then [Event.get_current_thread] else []) ++
        [Event.msg Diagnostic.pc_is_zero] ∧
      v.ponce_comments = w.ponce_comments ∧
      v.item_colors = w.item_colors ∧
      v.snapshot_modifications = w.snapshot_modifications ∧
      v.breakpoint_pending_actions = w.breakpoint_pending_actions := by
  refine ⟨msg Diagnostic.pc_is_zero (if threadID = 0 then emit Event.get_current_thread w else w),
    ?_, ?_⟩
  · simp [tritonize, hon]
  · by_cases ht : threadID = 0 <;> simp [ht, msg, emit]

/-- C2. With the trigger enabled, `pc` non-zero and the length assertion
passed, if the core does not accept the instruction (it returns false or it
throws), `tritonize` returns status 2, and the returned world is given by the
same expression in both cases. The two symbolic counters, the comment queue,
the item colours and the snapshot log are unchanged and the trigger stays on;
a second call at the same address that the core again does not accept returns
status 2 with the counters still equal to those before the first call. -/
theorem tritonize_refused_keeps_counters (h : Host) (cfg : Config) (w : World) (pc : Nat)
    (threadID : Int)
    (hon : w.ponce_runtime_status.runtimeTrigger = true) (hpc : pc ≠ 0)
    (hlen : item_size h pc < sizeof_opcodes)
    (hrej : (core_answer h w pc threadID).1 = ProcessingResult.rejected ∨
      (core_answer h w pc threadID).1 = ProcessingResult.exception) :
    ∃ v : World,
      v = msg (Diagnostic.not_supported pc (core_answer h w pc threadID).2.disassembly
        (resolve_thread h threadID)) (submitted h pc threadID w) ∧
      tritonize h cfg w pc threadID = some (2, v) ∧
      v.ponce_runtime_status.total_number_symbolic_ins
        = w.ponce_runtime_status.total_number_symbolic_ins ∧
      v.ponce_runtime_status.total_number_symbolic_conditions
        = w.ponce_runtime_status.total_number_symbolic_conditions ∧
      v.ponce_comments = w.ponce_comments ∧
      v.item_colors = w.item_colors ∧
      v.snapshot_modifications = w.snapshot_modifications ∧
      v.ponce_runtime_status.runtimeTrigger = true ∧
      ∀ (h2 : Host) (cfg2 : Config) (threadID2 : Int),
        item_size h2 pc < sizeof_opcodes →
        ((core_answer h2 v pc threadID2).1 = ProcessingResult.rejected ∨
          (core_answer h2 v pc threadID2).1 = ProcessingResult.exception) →
        ∃ u : World, tritonize h2 cfg2 v pc threadID2 = some (2, u) ∧
          u.ponce_runtime_status.total_number_symbolic_ins
            = w.ponce_runtime_status.total_number_symbolic_ins ∧
          u.ponce_runtime_status.total_number_symbolic_conditions
            = w.ponce_runtime_status.total_number_symbolic_conditions := by
  have ne_of : ∀ r : ProcessingResult,
      (r = ProcessingResult.rejected ∨ r = ProcessingResult.exception) →
        r ≠ ProcessingResult.accepted := by
    intro r hr hacc
    rcases hr with hr | hr <;> rw [hr] at hacc <;> cases hacc
  refine ⟨_, rfl, tritonize_of_refused h cfg w pc threadID hon hpc hlen (ne_of _ hrej), ?_⟩
  have hon2 : (msg (Diagnostic.not_supported pc (core_answer h w pc threadID).2.disassembly
      (resolve_thread h threadID)) (submitted h pc threadID w)).ponce_runtime_status.runtimeTrigger
        = true := by
    rw [submitted_eq]; simpa [msg, emit] using hon
  refine ⟨?_, ?_, ?_, ?_, ?_, hon2, ?_⟩
  · rw [submitted_eq]; rfl
  · rw [submitted_eq]; rfl
  · rw [submitted_eq]; rfl
  · rw [submitted_eq]; rfl
  · rw [submitted_eq]; rfl
  · intro h2 cfg2 threadID2 hlen2 hrej2
    refine ⟨_, tritonize_of_refused h2 cfg2 _ pc threadID2 hon2 hpc hlen2 (ne_of _ hrej2), ?_, ?_⟩
    · rw [submitted_eq, submitted_eq]; rfl
    · rw [submitted_eq, submitted_eq]; rfl

/-- C5. With the trigger enabled, `pc` non-zero, the length assertion passed
and the instruction accepted by the core, `tritonize` returns status 0; the
symbolic-instruction counter grows by 1 when the processed instruction is
tainted or symbolized (by 1 also when it is both) and by 0 otherwise, and the
symbolic-condition counter grows by 1 when the instruction is (tainted or
symbolized) and a branch, and by 0 otherwise. -/
theorem tritonize_accepted_counters (h : Host) (cfg : Config) (w : World) (pc : Nat)
    (threadID : Int)
    (hon : w.ponce_runtime_status.runtimeTrigger = true) (hpc : pc ≠ 0)
    (hlen : item_size h pc < sizeof_opcodes)
    (hacc : (core_answer h w pc threadID).1 = ProcessingResult.accepted) :
    ∃ v : World, tritonize h cfg w pc threadID = some (0, v) ∧
      v.ponce_runtime_status.total_number_symbolic_ins =
        w.ponce_runtime_status.total_number_symbolic_ins +
          (if (core_answer h w pc threadID).2.tainted = true ∨
              (core_answer h w pc threadID).2.symbolized = true then 1 else 0) ∧
      v.ponce_runtime_status.total_number_symbolic_conditions =
        w.ponce_runtime_status.total_number_symbolic_conditions +
          (if ((core_answer h w pc threadID).2.tainted = true ∨
              (core_answer h w pc threadID).2.symbolized = true) ∧
              (core_answer h w pc threadID).2.branch = true then 1 else 0) := by
  refine ⟨_, tritonize_of_accepted h cfg w pc threadID hon hpc hlen hacc, ?_⟩
  rw [(after_processing_effect h cfg _ pc _ _).1, submitted_eq]
  simp

/-- C7, as amended. With the trigger enabled, `pc` non-zero, the length
assertion passed, the instruction accepted by the core and the item at `pc`
already coloured, a `tritonize` visit returns status 0 and the painting step
adds nothing; the comment queue and the item colours are unchanged unless the
instruction is (tainted or symbolized) and a branch, in which case exactly one
entry `(pc, 3)` is appended to the queue and the colour of `pc` is overwritten
with the condition colour. -/
theorem tritonize_colored_visit (h : Host) (cfg : Config) (w : World) (pc : Nat)
    (threadID : Int)
    (hon : w.ponce_runtime_status.runtimeTrigger = true) (hpc : pc ≠ 0)
    (hlen : item_size h pc < sizeof_opcodes)
    (hacc : (core_answer h w pc threadID).1 = ProcessingResult.accepted)
    (hcol : get_item_color w pc ≠ DEFCOLOR) :
    ∃ v : World, tritonize h cfg w pc threadID = some (0, v) ∧
      v.ponce_comments =
        w.ponce_comments ++
          (if ((core_answer h w pc threadID).2.tainted = true ∨
              (core_answer h w pc threadID).2.symbolized = true) ∧
              (core_answer h w pc threadID).2.branch = true then [(pc, 3)] else []) ∧
      v.item_colors =
        (if ((core_answer h w pc threadID).2.tainted = true ∨
            (core_answer h w pc threadID).2.symbolized = true) ∧
            (core_answer h w pc threadID).2.branch = true
          then [(pc, if cfg.use_symbolic_engine = true then cfg.color_tainted_condition
            else cfg.color_tainted)] else []) ++ w.item_colors := by
  refine ⟨_, tritonize_of_accepted h cfg w pc threadID hon hpc hlen hacc, ?_, ?_⟩
  · have hcol2 : get_item_color (submitted h pc threadID w) pc ≠ DEFCOLOR := by
      rw [submitted_eq]; exact hcol
    rw [(after_processing_effect h cfg _ pc _ _).2.2.1]
    simp only [hcol2, and_false, if_false, List.append_nil]
    rw [submitted_eq]
    simp
  · have hcol2 : get_item_color (submitted h pc threadID w) pc ≠ DEFCOLOR := by
      rw [submitted_eq]; exact hcol
    rw [(after_processing_effect h cfg _ pc _ _).2.2.2]
    simp only [hcol2, and_false, if_false, List.nil_append]
    rw [submitted_eq]
    simp

/-! ## Claims about the engine lifecycle -/

theorem ponce_set_triton_architecture_world (h : Host) (w : World) :
    (ponce_set_triton_architecture h w).2 =
      { w with api := w.api ++ architecture_calls h, events := w.events ++ architecture_events h } := by
  unfold ponce_set_triton_architecture architecture_calls architecture_events
  have hne : ¬ PLFM_ARM = PLFM_386 := by decide
  by_cases h1 : h.ph_id = PLFM_386 <;> by_cases h2 : h.ph_id = PLFM_ARM <;>
  cases h.use64 <;> cases h.use32 <;> simp [h1, h2, hne, api_call, msg, emit]

/-- On a processor family other than x86 and ARM the selector returns false and makes no call on the core. -/
theorem ponce_set_triton_architecture_unsupported (h : Host) (w : World)
    (h1 : h.ph_id ≠ PLFM_386) (h2 : h.ph_id ≠ PLFM_ARM) :
    (ponce_set_triton_architecture h w).1 = false ∧
    (ponce_set_triton_architecture h w).2.api = w.api := by
  simp [ponce_set_triton_architecture, h1, h2, msg, emit]

theorem triton_restart_engines_eq (h : Host) (cfg : Config) (w : World) :
    triton_restart_engines h cfg w =
      { w with
        ponce_runtime_status :=
          { reset_runtime_status w.ponce_runtime_status with myPathConstraints := [] }
        breakpoint_pending_actions := []
        api := w.api ++ architecture_calls h ++
          [ApiCall.reset, ApiCall.addCallback Callback.needConcreteMemoryValue_cb,
            ApiCall.addCallback Callback.needConcreteRegisterValue_cb,
            ApiCall.enableTaintEngine cfg.use_tainting_engine,
            ApiCall.enableSymbolicEngine cfg.use_symbolic_engine]
        events := w.events ++
          (if cfg.showDebugInfo = true then [Event.msg Diagnostic.restarting_engines] else []) ++
          architecture_events h ++ [Event.set_automatic_taint_n_simbolic] } := by
  unfold triton_restart_engines
  simp only [ponce_set_triton_architecture_world]
  cases cfg.showDebugInfo <;>
  simp [api_call, msg, emit, set_automatic_taint_n_simbolic, reset_runtime_status]

/-- C6. `triton_restart_engines` is idempotent on the runtime status and on the
other plugin state: a second call, under any host and configuration, returns
the runtime status, pending-breakpoint queue, comment queue, item colours and
snapshot state of the first. After one call every counter is zero, the trigger
is disabled, tracing is not enabled, no instruction is held, and the
pending-breakpoint queue and the path-constraint log are empty. -/
theorem triton_restart_engines_idempotent (h h2 : Host) (cfg cfg2 : Config) (w : World) :
    (triton_restart_engines h2 cfg2 (triton_restart_engines h cfg w)).ponce_runtime_status
      = (triton_restart_engines h cfg w).ponce_runtime_status ∧
    (triton_restart_engines h2 cfg2 (triton_restart_engines h cfg w)).breakpoint_pending_actions
      = (triton_restart_engines h cfg w).breakpoint_pending_actions ∧
    (triton_restart_engines h2 cfg2 (triton_restart_engines h cfg w)).ponce_comments
      = (triton_restart_engines h cfg w).ponce_comments ∧
    (triton_restart_engines h2 cfg2 (triton_restart_engines h cfg w)).item_colors
      = (triton_restart_engines h cfg w).item_colors ∧
    (triton_restart_engines h2 cfg2 (triton_restart_engines h cfg w)).snapshot_exists
      = (triton_restart_engines h cfg w).snapshot_exists ∧
    (triton_restart_engines h2 cfg2 (triton_restart_engines h cfg w)).snapshot_modifications
      = (triton_restart_engines h cfg w).snapshot_modifications ∧
    (triton_restart_engines h cfg w).ponce_runtime_status.total_number_traced_ins = 0 ∧
    (triton_restart_engines h cfg w).ponce_runtime_status.total_number_symbolic_ins = 0 ∧
    (triton_restart_engines h cfg w).ponce_runtime_status.total_number_symbolic_conditions = 0 ∧
    (triton_restart_engines h cfg w).ponce_runtime_status.current_trace_counter = 0 ∧
    (triton_restart_engines h cfg w).ponce_runtime_status.tainted_functions_index = 0 ∧
    (triton_restart_engines h cfg w).ponce_runtime_status.runtimeTrigger = false ∧
    (triton_restart_engines h cfg w).ponce_runtime_status.is_ponce_tracing_enabled = false ∧
    (triton_restart_engines h cfg w).ponce_runtime_status.last_triton_instruction = none ∧
    (triton_restart_engines h cfg w).breakpoint_pending_actions = [] ∧
    (triton_restart_engines h cfg w).ponce_runtime_status.myPathConstraints = [] := by
  rw [triton_restart_engines_eq h2 cfg2, triton_restart_engines_eq h cfg]
  simp [reset_runtime_status]

theorem start_tainting_or_symbolic_analysis_eq (h : Host) (cfg : Config) (w : World)
    (hidle : w.ponce_runtime_status.is_ponce_tracing_enabled = false) :
    start_tainting_or_symbolic_analysis h cfg w =
      { w with
        ponce_runtime_status :=
          { reset_runtime_status w.ponce_runtime_status with
            myPathConstraints := []
            runtimeTrigger := true
            analyzed_thread := h.get_current_thread
            is_ponce_tracing_enabled := true
            tracing_start_time := 0 }
        ponce_comments := []
        breakpoint_pending_actions := []
        api := w.api ++ architecture_calls h ++
          [ApiCall.reset, ApiCall.addCallback Callback.needConcreteMemoryValue_cb,
            ApiCall.addCallback Callback.needConcreteRegisterValue_cb,
            ApiCall.enableTaintEngine cfg.use_tainting_engine,
            ApiCall.enableSymbolicEngine cfg.use_symbolic_engine]
        events := w.events ++
          (if cfg.showDebugInfo = true then [Event.msg Diagnostic.restarting_engines] else []) ++
          architecture_events h ++
          [Event.set_automatic_taint_n_simbolic, Event.delete_ponce_comments,
            Event.get_current_thread, Event.enable_step_trace true,
            Event.set_step_trace_options 0] } := by
  unfold start_tainting_or_symbolic_analysis
  simp only [hidle, if_true, triton_restart_engines_eq]
  simp [delete_ponce_comments, emit, reset_runtime_status]

theorem reachable_trigger_eq_tracing (r : World) (hr : Reachable r) :
    r.ponce_runtime_status.runtimeTrigger = r.ponce_runtime_status.is_ponce_tracing_enabled := by
  induction hr with
  | restarted h cfg w => rw [triton_restart_engines_eq]; rfl
  | restart h cfg w _ _ => rw [triton_restart_engines_eq]; rfl
  | start h cfg w _ ih =>
    cases hidle : w.ponce_runtime_status.is_ponce_tracing_enabled with
    | false => rw [start_tainting_or_symbolic_analysis_eq h cfg w hidle]
    | true =>
      have hsame : start_tainting_or_symbolic_analysis h cfg w = w := by
        simp [start_tainting_or_symbolic_analysis, hidle]
      rw [hsame, ih, hidle]
  | tritonize h cfg w v pc threadID status _ hret ih =>
    have hk := tritonize_keeps_flags h cfg w v pc threadID status hret
    rw [hk.1, hk.2, ih]

/-- C9. `start_tainting_or_symbolic_analysis` is the guarded Idle to Tracing
transition. Called on a world `t` in which tracing is already enabled it returns
`t`. Called on a world `i` in which tracing is not enabled (whatever the
architecture of the host) it returns a world with the trigger enabled, tracing
enabled, the analyzed thread equal to the current thread of the debugger, all
five counters zero and the comment queue empty. In every world `r` reachable
from a restarted world the trigger is enabled exactly when tracing is enabled. -/
theorem start_tainting_or_symbolic_analysis_guarded (h : Host) (cfg : Config)
    (t : World) (ht : t.ponce_runtime_status.is_ponce_tracing_enabled = true)
    (i : World) (hi : i.ponce_runtime_status.is_ponce_tracing_enabled = false)
    (r : World) (hr : Reachable r) :
    start_tainting_or_symbolic_analysis h cfg t = t ∧
    ((start_tainting_or_symbolic_analysis h cfg i).ponce_runtime_status.runtimeTrigger = true ∧
      (start_tainting_or_symbolic_analysis h cfg i).ponce_runtime_status.is_ponce_tracing_enabled = true ∧
      (start_tainting_or_symbolic_analysis h cfg i).ponce_runtime_status.analyzed_thread
        = h.get_current_thread ∧
      (start_tainting_or_symbolic_analysis h cfg i).ponce_runtime_status.total_number_traced_ins = 0 ∧
      (start_tainting_or_symbolic_analysis h cfg i).ponce_runtime_status.total_number_symbolic_ins = 0 ∧
      (start_tainting_or_symbolic_analysis h cfg i).ponce_runtime_status.total_number_symbolic_conditions = 0 ∧
      (start_tainting_or_symbolic_analysis h cfg i).ponce_runtime_status.current_trace_counter = 0 ∧
      (start_tainting_or_symbolic_analysis h cfg i).ponce_runtime_status.tainted_functions_index = 0 ∧
      (start_tainting_or_symbolic_analysis h cfg i).ponce_comments = []) ∧
    (r.ponce_runtime_status.runtimeTrigger = true ↔
      r.ponce_runtime_status.is_ponce_tracing_enabled = true) := by
  refine ⟨?_, ?_, ?_⟩
  · simp [start_tainting_or_symbolic_analysis, ht]
  · rw [start_tainting_or_symbolic_analysis_eq h cfg i hi]
    simp [reset_runtime_status]
  · rw [reachable_trigger_eq_tracing r hr]

/-! ## Witnesses, counterexamples and evaluations -/

theorem tritonize_trigger_disabled_witness :
    idle_world.ponce_runtime_status.runtimeTrigger = false ∧
    tritonize host_symbolic_branch painting_config idle_world 0x2000 0 = some (1, idle_world) :=
  ⟨by decide,
    (tritonize_trigger_disabled idle_world (by decide)).1 host_symbolic_branch painting_config 0x2000 0⟩

theorem tritonize_null_pc_witness :
    tracing_world.ponce_runtime_status.runtimeTrigger = true ∧
    ∃ v : World, tritonize host_symbolic_branch painting_config tracing_world 0 0 = some (2, v) ∧
      v.ponce_runtime_status = tracing_world.ponce_runtime_status ∧
      v.api = tracing_world.api :=
  ⟨by decide,
    (tritonize_null_pc host_symbolic_branch painting_config tracing_world 0 (by decide)).imp
      (fun _ hv => ⟨hv.1, hv.2.1, hv.2.2.2.1⟩)⟩

theorem tritonize_refused_keeps_counters_witness :
    tracing_world.ponce_runtime_status.runtimeTrigger = true ∧
    (0x1000 : Nat) ≠ 0 ∧
    item_size host_rejecting 0x1000 < sizeof_opcodes ∧
    (core_answer host_rejecting tracing_world 0x1000 0).1 = ProcessingResult.rejected ∧
    ∃ v : World, tritonize host_rejecting painting_config tracing_world 0x1000 0 = some (2, v) ∧
      v.ponce_runtime_status.total_number_symbolic_ins
        = tracing_world.ponce_runtime_status.total_number_symbolic_ins ∧
      v.ponce_runtime_status.total_number_symbolic_conditions
        = tracing_world.ponce_runtime_status.total_number_symbolic_conditions :=
  ⟨by decide, by decide, by decide, by decide,
    (tritonize_refused_keeps_counters host_rejecting painting_config tracing_world 0x1000 0
      (by decide) (by decide) (by decide) (Or.inl (by decide))).imp
      (fun _ hv => ⟨hv.2.1, hv.2.2.1, hv.2.2.2.1⟩)⟩

theorem tritonize_accepted_counters_witness :
    tracing_world.ponce_runtime_status.runtimeTrigger = true ∧
    (0x2000 : Nat) ≠ 0 ∧
    item_size host_symbolic_branch 0x2000 < sizeof_opcodes ∧
    (core_answer host_symbolic_branch tracing_world 0x2000 0).1 = ProcessingResult.accepted ∧
    ∃ v : World, tritonize host_symbolic_branch painting_config tracing_world 0x2000 0 = some (0, v) ∧
      v.ponce_runtime_status.total_number_symbolic_ins = 4 + 1 ∧
      v.ponce_runtime_status.total_number_symbolic_conditions = 2 + 1 :=
  ⟨by decide, by decide, by decide, by decide,
    (tritonize_accepted_counters host_symbolic_branch painting_config tracing_world 0x2000 0
      (by decide) (by decide) (by decide) (by decide)).imp
      (fun _ hv => ⟨hv.1, hv.2.1, hv.2.2⟩)⟩

/-- C7, counterexample. The item at `0x2000` is already coloured, painting is
enabled, and the instruction there is accepted by the core as a tainted and
symbolized branch; the visit returns status 0 and the comment queue grows from
one entry to two. -/
theorem tritonize_colored_branch_enqueues :
    tracing_world.ponce_runtime_status.runtimeTrigger = true ∧
    painting_config.paintExecutedInstructions = true ∧
    get_item_color tracing_world 0x2000 = 0x00ff00 ∧
    get_item_color tracing_world 0x2000 ≠ 0xffffffff ∧
    (core_answer host_symbolic_branch tracing_world 0x2000 0).1 = ProcessingResult.accepted ∧
    (core_answer host_symbolic_branch tracing_world 0x2000 0).2.tainted = true ∧
    (core_answer host_symbolic_branch tracing_world 0x2000 0).2.branch = true ∧
    tracing_world.ponce_comments = [(0x2000, 3)] ∧
    (tritonize host_symbolic_branch painting_config tracing_world 0x2000 0).map
        (fun r => (r.1, r.2.ponce_comments)) = some (0, [(0x2000, 3), (0x2000, 3)]) := by
  decide

theorem tritonize_colored_visit_witness :
    tracing_world.ponce_runtime_status.runtimeTrigger = true ∧
    (0x2000 : Nat) ≠ 0 ∧
    item_size host_tainted_move 0x2000 < sizeof_opcodes ∧
    (core_answer host_tainted_move tracing_world 0x2000 0).1 = ProcessingResult.accepted ∧
    get_item_color tracing_world 0x2000 ≠ DEFCOLOR ∧
    ∃ v : World, tritonize host_tainted_move painting_config tracing_world 0x2000 0 = some (0, v) ∧
      v.ponce_comments = tracing_world.ponce_comments ++ [] ∧
      v.item_colors = [] ++ tracing_world.item_colors :=
  ⟨by decide, by decide, by decide, by decide, by decide,
    (tritonize_colored_visit host_tainted_move painting_config tracing_world 0x2000 0
      (by decide) (by decide) (by decide) (by decide) (by decide)).imp
      (fun _ hv => ⟨hv.1, hv.2.1, hv.2.2⟩)⟩

theorem start_tainting_or_symbolic_analysis_guarded_witness :
    tracing_world.ponce_runtime_status.is_ponce_tracing_enabled = true ∧
    idle_world.ponce_runtime_status.is_ponce_tracing_enabled = false ∧
    Reachable (start_tainting_or_symbolic_analysis host_symbolic_branch painting_config
      (triton_restart_engines host_symbolic_branch painting_config tracing_world)) ∧
    start_tainting_or_symbolic_analysis host_symbolic_branch painting_config tracing_world
      = tracing_world ∧
    (start_tainting_or_symbolic_analysis host_symbolic_branch painting_config
      idle_world).ponce_runtime_status.runtimeTrigger = true :=
  ⟨by decide, by decide,
    Reachable.start _ _ _ (Reachable.restarted _ _ _),
    (start_tainting_or_symbolic_analysis_guarded host_symbolic_branch painting_config
      tracing_world (by decide) idle_world (by decide) _
      (Reachable.start host_symbolic_branch painting_config _
        (Reachable.restarted host_symbolic_branch painting_config tracing_world))).1,
    (start_tainting_or_symbolic_analysis_guarded host_symbolic_branch painting_config
      tracing_world (by decide) idle_world (by decide) _
      (Reachable.start host_symbolic_branch painting_config _
        (Reachable.restarted host_symbolic_branch painting_config tracing_world))).2.1.1⟩

/-- C3, evaluation. On a MIPS host `ponce_set_triton_architecture` returns false
without calling the core, and `triton_restart_engines` still resets: the core
receives `reset` and the four calls after it, the held instruction is dropped,
the trigger and the tracing flag are switched off, and the counters, the
pending-breakpoint queue and the path-constraint log are cleared. -/
theorem triton_restart_engines_on_unsupported_host :
    host_mips.ph_id ≠ PLFM_386 ∧ host_mips.ph_id ≠ PLFM_ARM ∧
    (ponce_set_triton_architecture host_mips tracing_world).1 = false ∧
    (ponce_set_triton_architecture host_mips tracing_world).2.api = tracing_world.api ∧
    (triton_restart_engines host_mips painting_config tracing_world).api =
      tracing_world.api ++
        [ApiCall.reset, ApiCall.addCallback Callback.needConcreteMemoryValue_cb,
          ApiCall.addCallback Callback.needConcreteRegisterValue_cb,
          ApiCall.enableTaintEngine false, ApiCall.enableSymbolicEngine true] ∧
    tracing_world.ponce_runtime_status.runtimeTrigger = true ∧
    (triton_restart_engines host_mips painting_config tracing_world).ponce_runtime_status.runtimeTrigger
      = false ∧
    tracing_world.ponce_runtime_status.total_number_symbolic_ins = 4 ∧
    (triton_restart_engines host_mips painting_config tracing_world).ponce_runtime_status.total_number_symbolic_ins
      = 0 ∧
    tracing_world.ponce_runtime_status.last_triton_instruction ≠ none ∧
    (triton_restart_engines host_mips painting_config tracing_world).ponce_runtime_status.last_triton_instruction
      = none ∧
    tracing_world.breakpoint_pending_actions = [1] ∧
    (triton_restart_engines host_mips painting_config tracing_world).breakpoint_pending_actions = [] ∧
    (triton_restart_engines host_mips painting_config tracing_world).ponce_runtime_status.myPathConstraints
      = [] := by
  decide

/-- C8, evaluation. At an address where `can_decode` is false, `tritonize`
prints the decoding diagnostic and goes on: it calls `decode_insn` and
`get_bytes`, replaces the held instruction and submits an instruction with an
empty opcode to the core. -/
theorem tritonize_on_decode_failure :
    tracing_world.ponce_runtime_status.runtimeTrigger = true ∧
    host_decode_failure.can_decode 0x1000 = false ∧
    (tritonize host_decode_failure painting_config tracing_world 0x1000 7).map
        (fun r => (r.1, r.2.api, r.2.events)) =
      some (2,
        tracing_world.api ++
          [ApiCall.processing { Instruction.fresh with address := 0x1000, threadId := 7, opcode := [] }],
        [Event.can_decode 0x1000, Event.msg (Diagnostic.error_decoding 0x1000),
          Event.decode_insn 0x1000, Event.get_bytes 0 0x1000,
          Event.msg (Diagnostic.not_supported 0x1000 "" 7)]) ∧
    (tritonize host_decode_failure painting_config tracing_world 0x1000 7).map
        (fun r => r.2.ponce_runtime_status.last_triton_instruction) =
      some (some { Instruction.fresh with address := 0x1000, threadId := 7, opcode := [] }) := by
  decide

/-- C10, evaluation. With a decoded length of 15 the assertion of line 50 fails
and `tritonize` does not return, while a decoded length of 14 passes and 14
opcode bytes are handed to the core. -/
theorem tritonize_fifteen_byte_instruction :
    tracing_world.ponce_runtime_status.runtimeTrigger = true ∧
    item_size host_fifteen_bytes 0x1000 = 15 ∧
    tritonize host_fifteen_bytes painting_config tracing_world 0x1000 7 = none ∧
    item_size host_fourteen_bytes 0x1000 = 14 ∧
    (tritonize host_fourteen_bytes painting_config tracing_world 0x1000 7).map (fun r => r.1) = some 0 ∧
    (build_instruction host_fourteen_bytes 0x1000 7).opcode.length = 14 := by
  decide

end Ponce
